import Mathlib

/-!
Verification of the HUDEI HUDEI WOMEN CLUB Telegram bot
(src/hudei_hudei_bot.py) against its specification.

The Python source is shallowly embedded: the SQLite tables become lists of
row structures, each async handler becomes a pure function from the database
state (plus the incoming update's fields) to the new state together with a
trace of outgoing side effects (messages sent, replies, message edits), and
network sends that can raise inside a try/except are driven by an explicit
success oracle.
-/

namespace HudeiBot

/-! ### String helpers

Core string functions such as String.splitOn and String.trim are defined by
well-founded recursion over byte positions and do not reduce in the kernel,
so the character-level operations the handlers need are implemented here by
structural recursion over String.data.  Each one mirrors the Python string
operation named in its doc comment. -/

/-- Python str.strip() whitespace test (ASCII whitespace, which is all the
bot's inputs use). -/
def isSpaceChar (c : Char) : Bool :=
  c = ' ' || c = '\t' || c = '\n' || c = '\r'

/-- Characters of Python s.strip(): drop whitespace from both ends. -/
def trimChars (l : List Char) : List Char :=
  ((l.dropWhile isSpaceChar).reverse.dropWhile isSpaceChar).reverse

/-- Python s.strip(). -/
def strTrim (s : String) : String :=
  ⟨trimChars s.data⟩

/-- Python s.lower() (the inputs it is applied to are ASCII tags). -/
def strLower (s : String) : String :=
  ⟨s.data.map Char.toLower⟩

/-- Split a character list at every occurrence of a separator character,
keeping empty pieces, like Python str.split(sep). -/
def splitCharsOn (sep : Char) : List Char → List (List Char)
  | [] => [[]]
  | c :: cs =>
    if c = sep then [] :: splitCharsOn sep cs
    else
      match splitCharsOn sep cs with
      | [] => [[c]]
      | h :: t => (c :: h) :: t

/-- Python s.split(sep) for a one-character separator. -/
def splitStrOn (sep : Char) (s : String) : List String :=
  (splitCharsOn sep s.data).map (fun cs => ⟨cs⟩)

/-- Python s.partition(" ")[2]: everything after the first space, or the
empty string when there is no space. -/
def afterFirstSpace (s : String) : String :=
  match splitStrOn ' ' s with
  | [] => ""
  | [_] => ""
  | _ :: rest => " ".intercalate rest

/-- Python s.split(":", 1): the part before the first colon and the part
after it; none when the string holds no colon (where Python raises
ValueError from the two-name unpacking). -/
def splitColon1 (s : String) : Option (String × String) :=
  match splitStrOn ':' s with
  | a :: b :: rest => some (a, ":".intercalate (b :: rest))
  | _ => none

/-- Value of a decimal digit character, if it is one. -/
def charDigit? (c : Char) : Option Nat :=
  if '0' ≤ c ∧ c ≤ '9' then some (c.toNat - '0'.toNat) else none

/-- Python int(s) on the callback-data ids the bot itself renders: a
non-empty all-digit string (Python also accepts signs and surrounding
whitespace, which never occur in this bot's callback data). -/
def strToNatQ (s : String) : Option Nat :=
  match s.data with
  | [] => none
  | cs =>
    cs.foldl
      (fun acc c =>
        match acc, charDigit? c with
        | some a, some d => some (a * 10 + d)
        | _, _ => none)
      (some 0)

/-- Does the character list start with the given needle? -/
def leadsWith : List Char → List Char → Bool
  | [], _ => true
  | _ :: _, [] => false
  | a :: as, b :: bs => a = b && leadsWith as bs

/-- Does the needle occur contiguously anywhere in the haystack? -/
def subChars (needle : List Char) : List Char → Bool
  | [] => leadsWith needle []
  | c :: t => leadsWith needle (c :: t) || subChars needle t

/-- Substring test on strings: does hay contain needle? -/
def strContainsSub (hay needle : String) : Bool :=
  subChars needle.data hay.data

/-! ### Configuration (src lines 53-57)

ADMIN_IDS comes from the ADMIN_IDS environment variable, CHANNEL_ID from
CHANNEL_ID; CHANNEL_ID is optional and Python treats the empty string as
falsy, which the handlers below reproduce. -/

/-- Process configuration: administrator ids and optional channel id. -/
structure Config where
  ADMIN_IDS : List Nat
  CHANNEL_ID : Option String
deriving Repr, DecidableEq

/-! ### Data model: the two SQLite tables (src lines 82-99) -/

/-- Row of the users table: user_id INTEGER PRIMARY KEY, username TEXT,
first_name TEXT, joined_at TIMESTAMP DEFAULT CURRENT_TIMESTAMP,
subscribed INTEGER DEFAULT 1. -/
structure UserRow where
  user_id : Nat
  username : Option String
  first_name : Option String
  joined_at : Nat
  subscribed : Int
deriving Repr, DecidableEq

/-- Row of the stories table: id INTEGER PRIMARY KEY AUTOINCREMENT,
user_id INTEGER, content TEXT, status TEXT DEFAULT 'pending',
created_at TIMESTAMP DEFAULT CURRENT_TIMESTAMP. -/
structure StoryRow where
  id : Nat
  user_id : Nat
  content : String
  status : String
  created_at : Nat
deriving Repr, DecidableEq

/-- The SQLite database: both tables.  Rows are never deleted by any
handler, so AUTOINCREMENT is the largest present id plus one. -/
structure DB where
  users : List UserRow
  stories : List StoryRow
deriving Repr, DecidableEq

/-- The empty database produced by init_db (src lines 101-105). -/
def initDB : DB := ⟨[], []⟩

/-! ### DB helpers (src lines 107-136) -/

/-- upsert_user (src lines 107-114): INSERT new row (subscribed defaults
to 1, joined_at to the current time) ON CONFLICT(user_id) DO UPDATE SET
only username and first_name. -/
def upsert_user (db : DB) (user_id : Nat) (username first_name : Option String)
    (now : Nat) : DB :=
  if db.users.any (fun r => r.user_id = user_id) then
    { db with
      users := db.users.map (fun r =>
        if r.user_id = user_id then
          { r with username := username, first_name := first_name }
        else r) }
  else
    { db with
      users := db.users ++
        [{ user_id := user_id, username := username, first_name := first_name,
           joined_at := now, subscribed := 1 }] }

/-- set_subscribed (src lines 116-119): UPDATE users SET subscribed=flag
WHERE user_id=user_id. -/
def set_subscribed (db : DB) (user_id : Nat) (flag : Int) : DB :=
  { db with
    users := db.users.map (fun r =>
      if r.user_id = user_id then { r with subscribed := flag } else r) }

/-- get_subscribed_users (src lines 121-125): SELECT user_id FROM users
WHERE subscribed=1, in table order. -/
def get_subscribed_users (db : DB) : List Nat :=
  (db.users.filter (fun r => r.subscribed = 1)).map (fun r => r.user_id)

/-- The id AUTOINCREMENT assigns to the next inserted story: rows are never
deleted, so it is the largest id present plus one (1 on an empty table). -/
def nextStoryId (db : DB) : Nat :=
  (db.stories.map (fun s => s.id)).foldr max 0 + 1

/-- add_story (src lines 127-131): INSERT INTO stories(user_id, content),
status defaulting to 'pending'; returns cur.lastrowid. -/
def add_story (db : DB) (user_id : Nat) (content : String) (now : Nat) :
    DB × Nat :=
  let sid := nextStoryId db
  ({ db with
     stories := db.stories ++
       [{ id := sid, user_id := user_id, content := content,
          status := "pending", created_at := now }] },
   sid)

/-- set_story_status (src lines 133-136): UPDATE stories SET status=status
WHERE id=story_id. -/
def set_story_status (db : DB) (story_id : Nat) (status : String) : DB :=
  { db with
    stories := db.stories.map (fun s =>
      if s.id = story_id then { s with status := status } else s) }

/-- Status of the story with the given id, if present. -/
def status_of (db : DB) (story_id : Nat) : Option String :=
  (db.stories.find? (fun s => s.id = story_id)).map (fun s => s.status)

/-! ### Content loader (src lines 138-158)

re.split with the single capture group (Morning|Day|Evening) returns a list
of odd length: the text before the first header, then alternating captured
tag / following block.  The loop `for i in range(1, len(blocks), 2)` walks
exactly those (tag, block) pairs, so the parsed file is embedded as that
pair list; a missing or unreadable file (the except branch, which leaves
the freshly reset pools empty) is the none input. -/

/-- The three pools the POSTS dict holds. -/
structure Posts where
  morning : List String
  day : List String
  evening : List String
deriving Repr, DecidableEq

/-- The reset value of POSTS at the top of load_posts (src line 143). -/
def emptyPosts : Posts := ⟨[], [], []⟩

/-- One iteration of the parse loop (src lines 148-152): lowercase and trim
the tag, trim the block, and append it to the tag's pool when the tag is a
POSTS key and the trimmed block is non-empty. -/
def addBlock (p : Posts) (rawTag rawText : String) : Posts :=
  let tag := strLower (strTrim rawTag)
  let text := strTrim rawText
  if text = "" then p
  else if tag = "morning" then { p with morning := p.morning ++ [text] }
  else if tag = "day" then { p with day := p.day ++ [text] }
  else if tag = "evening" then { p with evening := p.evening ++ [text] }
  else p

/-- The parse loop over all (tag, block) pairs, in file order. -/
def parseBlocks (pairs : List (String × String)) : Posts :=
  pairs.foldl (fun p pr => addBlock p pr.1 pr.2) emptyPosts

/-- The fallback loop (src lines 155-157): every pool that ended up empty is
replaced by the single placeholder entry for its key (the f-string
`k.title() + " post placeholder. ..."` evaluated at each of the three
keys). -/
def fillPlaceholders (p : Posts) : Posts :=
  { morning :=
      if p.morning = [] then ["Morning post placeholder. Добавь содержимое в posts.txt"]
      else p.morning,
    day :=
      if p.day = [] then ["Day post placeholder. Добавь содержимое в posts.txt"]
      else p.day,
    evening :=
      if p.evening = [] then ["Evening post placeholder. Добавь содержимое в posts.txt"]
      else p.evening }

/-- load_posts (src lines 141-158): none is a missing or unreadable file
(the except branch); some pairs is the successfully split file.  The
placeholder fallback runs in both cases. -/
def load_posts (input : Option (List (String × String))) : Posts :=
  let p :=
    match input with
    | none => emptyPosts
    | some pairs => parseBlocks pairs
  fillPlaceholders p

/-! ### Outgoing side effects

Every bot API call a handler makes is recorded as an event, in program
order.  A send that raises inside a try/except still appears in the trace
(the attempt happened); which sends raise is decided by the success oracles
passed to the handlers. -/

/-- Destination of a send_message call. -/
inductive Dest where
  | channel : String → Dest
  | user : Nat → Dest
deriving Repr, DecidableEq

/-- One outgoing bot API call: a send_message with inline keyboard buttons
given as (label, callback_data) pairs, a reply_text to the triggering
message, an edit_message_text of the triggering callback message, or a
callback query.answer(). -/
inductive Event where
  | send : Dest → String → List (String × String) → Event
  | reply : String → Event
  | edit : String → Event
  | answerCb : Event
deriving Repr, DecidableEq

/-- Is the event a send_message call? -/
def Event.isSend : Event → Bool
  | .send _ _ _ => true
  | _ => false

/-- Is the event a send_message call to an individual user chat? -/
def Event.isUserSend : Event → Bool
  | .send (Dest.user _) _ _ => true
  | _ => false

/-! ### Broadcast dispatcher (src lines 165-181) -/

/-- target_chat_id_fallback (src lines 165-166): returns CHANNEL_ID. -/
def target_chat_id_fallback (cfg : Config) : Option String :=
  cfg.CHANNEL_ID

/-- The individual fan-out loop of post_text (src lines 176-181): attempt a
send to every subscribed user id; a raising send is caught by the
try/except and the loop continues. -/
def userFanout (db : DB) (text : String) : List Event :=
  (get_subscribed_users db).map (fun uid => Event.send (Dest.user uid) text [])

/-- post_text (src lines 168-181): when the channel id is truthy (set and
non-empty) attempt a channel send and return on success; on a raising
channel send (chOk = false) fall through to the individual fan-out; with no
truthy channel go straight to the fan-out. -/
def post_text (cfg : Config) (db : DB) (chOk : Bool) (text : String) :
    List Event :=
  match target_chat_id_fallback cfg with
  | some ch =>
    if ch = "" then userFanout db text
    else if chOk then [Event.send (Dest.channel ch) text []]
    else Event.send (Dest.channel ch) text [] :: userFanout db text
  | none => userFanout db text

/-! ### Conversation handlers (src lines 196-276) -/

/-- The two ConversationHandler states MENU, STORY (src line 60). -/
inductive ConvState where
  | MENU
  | STORY
deriving Repr, DecidableEq

/-- Menu button labels (src lines 61-63). -/
def BTN_SHARE : String := "Поделиться историей"

/-- Rules button label. -/
def BTN_RULES : String := "Правила"

/-- Unsubscribe button label. -/
def BTN_UNSUB : String := "Отписаться"

/-- Welcome text (src lines 65-70). -/
def WELCOME : String :=
  "🌷 Добро пожаловать в HUDEI HUDEI WOMEN CLUB!\n\n" ++
  "Здесь безопасно делиться, поддерживать и расти вместе. ✨\n\n" ++
  "Каждый день в 19:19 мы публикуем тёплый вечерний пост.\n" ++
  "Нажми «Поделиться историей» — если хочешь рассказать о своём пути. 🦋"

/-- Rules text (src lines 72-79). -/
def RULES : String :=
  "🤍 Правила сообщества:\n" ++
  "1) Без осуждения и сравнения.\n" ++
  "2) Поддержка вместо критики.\n" ++
  "3) Бережность к себе и другим.\n" ++
  "4) Приватность: всё сказанное — остаётся в клубе.\n" ++
  "5) Уважение к разным историям и темпам."

/-- start (src lines 201-205): upsert the member, send the welcome text with
the main keyboard, return MENU. -/
def start (db : DB) (user_id : Nat) (username first_name : Option String)
    (now : Nat) : DB × List Event × ConvState :=
  let db2 := upsert_user db user_id username first_name now
  (db2, [Event.reply WELCOME], ConvState.MENU)

/-- menu_router (src lines 207-224): dispatch on the stripped message text;
the Unsubscribe button sets the member's subscribed flag to 0. -/
def menu_router (db : DB) (user_id : Nat) (text : String) :
    DB × List Event × ConvState :=
  let t := strTrim text
  if t = BTN_SHARE then
    (db, [Event.reply "💌 Напиши свою историю (можно анонимно, без имён)."],
     ConvState.STORY)
  else if t = BTN_RULES then
    (db, [Event.reply RULES], ConvState.MENU)
  else if t = BTN_UNSUB then
    (set_subscribed db user_id 0,
     [Event.reply "Вы отписались от вечерних сообщений. Чтобы вернуться — /start"],
     ConvState.MENU)
  else
    (db, [Event.reply "Выберите действие на клавиатуре ниже."], ConvState.MENU)

/-- Text of the admin notification for a new story (src line 242). -/
def adminNotifyText (story_id : Nat) (content : String) : String :=
  "📝 Новая история #" ++ toString story_id ++ ":\n\n" ++ content

/-- The two inline moderation buttons (src lines 232-237), as
(label, callback_data) pairs. -/
def storyButtons (story_id : Nat) : List (String × String) :=
  [("✅ Опубликовать", "approve:" ++ toString story_id),
   ("✖️ Отклонить", "reject:" ++ toString story_id)]

/-- receive_story (src lines 226-247): persist the text as a new pending
story, thank the author, and (when ADMIN_IDS is non-empty) attempt a
notification send to every admin id, each send's failure swallowed by its
try/except; return MENU. -/
def receive_story (cfg : Config) (db : DB) (user_id : Nat) (content : String)
    (now : Nat) : DB × List Event × ConvState :=
  let r := add_story db user_id content now
  let notifies :=
    if cfg.ADMIN_IDS = [] then []
    else
      cfg.ADMIN_IDS.map (fun a =>
        Event.send (Dest.user a) (adminNotifyText r.2 content) (storyButtons r.2))
  (r.1,
   Event.reply "Спасибо за доверие 💌 История отправлена на модерацию." :: notifies,
   ConvState.MENU)

/-- approve_reject (src lines 249-259): answer the callback, split the
callback data at the first colon into action and id, parse the id, and set
the story's status and edit the notification accordingly; an unknown action
tag only answers.  none embeds the two raising paths (no colon, non-numeric
id) that the handler's dispatch pattern and the bot's own callback data
never produce. -/
def approve_reject (db : DB) (data : String) : Option (DB × List Event) :=
  match splitColon1 data with
  | none => none
  | some (action, sid) =>
    match strToNatQ sid with
    | none => none
    | some story_id =>
      if action = "approve" then
        some (set_story_status db story_id "approved",
          [Event.answerCb,
           Event.edit ("✅ История #" ++ toString story_id ++ " одобрена.")])
      else if action = "reject" then
        some (set_story_status db story_id "rejected",
          [Event.answerCb,
           Event.edit ("✖️ История #" ++ toString story_id ++ " отклонена.")])
      else
        some (db, [Event.answerCb])

/-- The database after one moderation callback (unchanged on the raising
paths). -/
def moderation_step (db : DB) (data : String) : DB :=
  match approve_reject db data with
  | some r => r.1
  | none => db

/-- broadcast (src lines 261-276): silently ignore non-admin senders; with
an empty payload reply with the usage line; otherwise attempt a send of the
payload to every subscribed user id, counting the sends the oracle lets
succeed, and reply with the success count. -/
def broadcast (cfg : Config) (db : DB) (okf : Nat → Bool) (sender : Nat)
    (text : String) : DB × List Event :=
  if sender ∈ cfg.ADMIN_IDS then
    let msg := strTrim (afterFirstSpace text)
    if msg = "" then
      (db, [Event.reply "Использование: /broadcast <текст>"])
    else
      let users := get_subscribed_users db
      let okCount := (users.filter okf).length
      (db,
       users.map (fun uid => Event.send (Dest.user uid) msg []) ++
       [Event.reply ("Рассылка отправлена " ++ toString okCount ++ " участницам.")])
  else
    (db, [])

/-! ### Helper lemmas -/

/-- Setting the same status twice is the same as setting it once. -/
theorem set_story_status_idem (db : DB) (n : Nat) (st : String) :
    set_story_status (set_story_status db n st) n st = set_story_status db n st := by
  have hf :
      ((fun s : StoryRow => if s.id = n then { s with status := st } else s) ∘
        (fun s : StoryRow => if s.id = n then { s with status := st } else s)) =
      (fun s : StoryRow => if s.id = n then { s with status := st } else s) := by
    funext s
    by_cases h : s.id = n <;> simp [Function.comp, h]
  simp only [set_story_status, List.map_map]
  rw [hf]

/-- A status observed after one UPDATE ... SET status=st WHERE id=m is
either st itself or the status already observed before the update. -/
theorem find?_status_set (l : List StoryRow) (m n : Nat) (st x : String)
    (h : (((l.map (fun s => if s.id = m then { s with status := st } else s)).find?
        (fun s => s.id = n)).map (fun s => s.status)) = some x) :
    x = st ∨ ((l.find? (fun s => s.id = n)).map (fun s => s.status)) = some x := by
  induction l with
  | nil => simp at h
  | cons a t ih =>
    by_cases han : a.id = n
    · have hfa : ((if a.id = m then { a with status := st } else a) : StoryRow).id = n := by
        by_cases ham : a.id = m
        · simp only [if_pos ham]; simpa using han
        · simp only [if_neg ham]; exact han
      rw [List.map_cons, List.find?_cons_of_pos _ (by simp [hfa])] at h
      rw [List.find?_cons_of_pos _ (by simp [han])]
      by_cases ham : a.id = m
      · left
        simp [ham] at h
        exact h.symm
      · right
        simp [ham] at h
        simp [h]
    · have hfa : ¬ ((if a.id = m then { a with status := st } else a) : StoryRow).id = n := by
        by_cases ham : a.id = m
        · simp only [if_pos ham]; simpa using han
        · simp only [if_neg ham]; exact han
      rw [List.map_cons, List.find?_cons_of_neg _ (by simp [hfa])] at h
      rw [List.find?_cons_of_neg _ (by simp [han])]
      exact ih h

/-- One moderation callback leaves any observed status either terminal or
equal to what was already observed before the callback. -/
theorem status_of_moderation_step (db : DB) (a : String) (n : Nat) (x : String)
    (h : status_of (moderation_step db a) n = some x) :
    x = "approved" ∨ x = "rejected" ∨ status_of db n = some x := by
  cases hc : splitColon1 a with
  | none =>
    right; right
    simpa [moderation_step, approve_reject, hc] using h
  | some pr =>
    obtain ⟨act, s⟩ := pr
    cases hn : strToNatQ s with
    | none =>
      right; right
      simpa [moderation_step, approve_reject, hc, hn] using h
    | some m =>
      by_cases ha : act = "approve"
      · have h2 : status_of (set_story_status db m "approved") n = some x := by
          simpa [moderation_step, approve_reject, hc, hn, ha] using h
        have h3 := find?_status_set db.stories m n "approved" x
          (by simpa [status_of, set_story_status] using h2)
        rcases h3 with h3 | h3
        · exact Or.inl h3
        · exact Or.inr (Or.inr (by simpa [status_of] using h3))
      · by_cases hr : act = "reject"
        · have h2 : status_of (set_story_status db m "rejected") n = some x := by
            simpa [moderation_step, approve_reject, hc, hn, ha, hr] using h
          have h3 := find?_status_set db.stories m n "rejected" x
            (by simpa [status_of, set_story_status] using h2)
          rcases h3 with h3 | h3
          · exact Or.inr (Or.inl h3)
          · exact Or.inr (Or.inr (by simpa [status_of] using h3))
        · right; right
          simpa [moderation_step, approve_reject, hc, hn, ha, hr] using h

/-- A needle is a prefix of itself followed by anything. -/
theorem leadsWith_append (n t : List Char) : leadsWith n (n ++ t) = true := by
  induction n with
  | nil => rfl
  | cons c cs ih => simp [leadsWith, ih]

/-- A needle occurs at the very start of itself followed by anything. -/
theorem subChars_self_append (mid suf : List Char) :
    subChars mid (mid ++ suf) = true := by
  cases mid with
  | nil =>
    cases suf with
    | nil => rfl
    | cons c t => simp [subChars, leadsWith]
  | cons c cs =>
    have := leadsWith_append (c :: cs) suf
    simp [subChars]
    left
    simpa using this

/-- A needle occurs in any haystack of the form prefix ++ needle ++ suffix. -/
theorem subChars_append (pre mid suf : List Char) :
    subChars mid (pre ++ mid ++ suf) = true := by
  induction pre with
  | nil => simpa using subChars_self_append mid suf
  | cons c p ih =>
    have hshape : (c :: p) ++ mid ++ suf = c :: (p ++ mid ++ suf) := by simp
    rw [hshape]
    simp [subChars]
    right
    simpa using ih

/-- Substring containment for a string assembled around its needle. -/
theorem strContainsSub_parts (p mid s : String) :
    strContainsSub (p ++ mid ++ s) mid = true := by
  have hdata : (p ++ mid ++ s).data = p.data ++ mid.data ++ s.data := by
    simp [String.data_append]
  simp only [strContainsSub, hdata]
  exact subChars_append p.data mid.data s.data

/-! ### Claim C1 -/

/-- Claim C1 counterexample: approving pending story 1 sets its status to
approved, but the handler's entire effect trace is the callback answer and
the edit of the admin notification — it contains no send_message call at
all, so nothing is republished to the public channel no matter what
CHANNEL_ID is configured (approve_reject never reads the configuration). -/
theorem approve_no_republish_counterexample :
    approve_reject ⟨[], [⟨1, 5, "hi", "pending", 0⟩]⟩ "approve:1" =
      some (⟨[], [⟨1, 5, "hi", "approved", 0⟩]⟩,
        [Event.answerCb, Event.edit "✅ История #1 одобрена."]) ∧
    [Event.answerCb, Event.edit "✅ История #1 одобрена."].filter Event.isSend = [] := by
  decide

/-- Claim C1 (amended): on an approve action for a parsed submission id the
handler sets that submission's status to approved and edits the originating
admin notification to a confirmation; it emits no send_message call, so the
submission body is not republished to the configured public channel. -/
theorem approve_sets_status_only (db : DB) (data s : String) (n : Nat)
    (h1 : splitColon1 data = some ("approve", s)) (h2 : strToNatQ s = some n) :
    approve_reject db data =
      some (set_story_status db n "approved",
        [Event.answerCb, Event.edit ("✅ История #" ++ toString n ++ " одобрена.")]) ∧
    ∀ e ∈ [Event.answerCb,
        Event.edit ("✅ История #" ++ toString n ++ " одобрена.")], e.isSend = false := by
  constructor
  · simp [approve_reject, h1, h2]
  · intro e he
    simp only [List.mem_cons, List.not_mem_nil, or_false] at he
    rcases he with rfl | rfl <;> rfl

/-- Witness for approve_sets_status_only at story id 3. -/
theorem approve_sets_status_only_witness :
    approve_reject ⟨[], [⟨3, 7, "мой путь", "pending", 2⟩]⟩ "approve:3" =
      some (set_story_status ⟨[], [⟨3, 7, "мой путь", "pending", 2⟩]⟩ 3 "approved",
        [Event.answerCb, Event.edit ("✅ История #" ++ toString 3 ++ " одобрена.")]) ∧
    ∀ e ∈ [Event.answerCb, Event.edit ("✅ История #" ++ toString 3 ++ " одобрена.")],
      e.isSend = false :=
  approve_sets_status_only ⟨[], [⟨3, 7, "мой путь", "pending", 2⟩]⟩ "approve:3" "3" 3
    (by decide) (by decide)

/-! ### Claim C2 -/

/-- Claim C2: the claimed round-trip fails in the code.  Member 1 subscribes
via start (subscribed defaults to 1), the Unsubscribe button sets the flag
to 0, and a second start — whose upsert_user ON CONFLICT clause updates only
username and first_name — leaves the flag at 0, so the id never returns to
get_subscribed_users even though the bot's own unsubscribe reply promises
that /start brings the member back. -/
theorem unsubscribe_start_no_resubscribe :
    get_subscribed_users ((start initDB 1 none none 0).1) = [1] ∧
    get_subscribed_users ((menu_router ((start initDB 1 none none 0).1) 1 BTN_UNSUB).1) = [] ∧
    get_subscribed_users
      ((start ((menu_router ((start initDB 1 none none 0).1) 1 BTN_UNSUB).1) 1 none none 7).1) =
      [] := by
  decide

/-! ### Claims C3 and C4 -/

/-- Claim C3 counterexample: story 1 reaches approved, and the immediately
following reject callback moves it from one terminal status to the opposite
one — the handler's UPDATE is unconditional, so approved → rejected happens. -/
theorem status_reversal_counterexample :
    status_of (moderation_step ⟨[], [⟨1, 5, "hi", "pending", 0⟩]⟩ "approve:1") 1 =
      some "approved" ∧
    status_of
      (moderation_step (moderation_step ⟨[], [⟨1, 5, "hi", "pending", 0⟩]⟩ "approve:1")
        "reject:1") 1 = some "rejected" := by
  decide

/-- Claim C3 (amended): every moderation action overwrites the targeted
submission's status with its own terminal value regardless of the current
status, so after any sequence of moderation callbacks an observed status is
approved, rejected, or the status the submission already had — in
particular a submission never returns to pending, but opposite terminal
statuses can overwrite each other. -/
theorem status_transitions (db : DB) (acts : List String) (n : Nat) (st : String)
    (h : status_of (acts.foldl moderation_step db) n = some st) :
    st = "approved" ∨ st = "rejected" ∨ status_of db n = some st := by
  induction acts generalizing db with
  | nil =>
    right; right
    simpa using h
  | cons a t ih =>
    have h2 := ih (moderation_step db a) (by simpa using h)
    rcases h2 with h2 | h2 | h2
    · exact Or.inl h2
    · exact Or.inr (Or.inl h2)
    · exact status_of_moderation_step db a n st h2

/-- Witness for status_transitions: one approve action on a pending story. -/
theorem status_transitions_witness :
    "approved" = "approved" ∨ "approved" = "rejected" ∨
      status_of ⟨[], [⟨1, 5, "hi", "pending", 0⟩]⟩ 1 = some "approved" :=
  status_transitions ⟨[], [⟨1, 5, "hi", "pending", 0⟩]⟩ ["approve:1"] 1 "approved" (by decide)

/-- Claim C4: applying the same moderation callback twice leaves exactly the
state a single application produces — the status UPDATE writes a constant,
so repeating it is a no-op. -/
theorem moderation_idempotent (db : DB) (data : String) :
    moderation_step (moderation_step db data) data = moderation_step db data := by
  cases hc : splitColon1 data with
  | none => simp [moderation_step, approve_reject, hc]
  | some pr =>
    obtain ⟨act, s⟩ := pr
    cases hn : strToNatQ s with
    | none => simp [moderation_step, approve_reject, hc, hn]
    | some m =>
      by_cases ha : act = "approve"
      · simp [moderation_step, approve_reject, hc, hn, ha, set_story_status_idem]
      · by_cases hr : act = "reject"
        · simp [moderation_step, approve_reject, hc, hn, ha, hr, set_story_status_idem]
        · simp [moderation_step, approve_reject, hc, hn, ha, hr]

/-! ### Claim C5 -/

/-- Every pool coming out of the placeholder fallback is non-empty. -/
theorem fillPlaceholders_nonempty (p : Posts) :
    (fillPlaceholders p).morning ≠ [] ∧ (fillPlaceholders p).day ≠ [] ∧
    (fillPlaceholders p).evening ≠ [] := by
  refine ⟨?_, ?_, ?_⟩
  · by_cases h : p.morning = [] <;> simp [fillPlaceholders, h]
  · by_cases h : p.day = [] <;> simp [fillPlaceholders, h]
  · by_cases h : p.evening = [] <;> simp [fillPlaceholders, h]

/-- Cyclic day indexing into a non-empty pool always lands in bounds. -/
theorem get?_mod_isSome (l : List String) (hl : l ≠ []) (d : Nat) :
    (l.get? (d % l.length)).isSome := by
  have hpos : 0 < l.length := List.length_pos.mpr hl
  have hlt : d % l.length < l.length := Nat.mod_lt _ hpos
  rw [List.get?_eq_get hlt]
  rfl

/-- Claim C5: after load_posts runs on any input — a missing or unparsable
file (none) or any split file, including one lacking blocks for some tag —
all three pools are non-empty, and for every day index the selection
pool[dayIndex mod len(pool)] used by the scheduled jobs is in bounds and
yields a post. -/
theorem pools_never_empty_selection_succeeds
    (input : Option (List (String × String))) (d : Nat) :
    (load_posts input).morning ≠ [] ∧ (load_posts input).day ≠ [] ∧
    (load_posts input).evening ≠ [] ∧
    ((load_posts input).morning.get? (d % (load_posts input).morning.length)).isSome ∧
    ((load_posts input).day.get? (d % (load_posts input).day.length)).isSome ∧
    ((load_posts input).evening.get? (d % (load_posts input).evening.length)).isSome := by
  cases input with
  | none =>
    obtain ⟨h1, h2, h3⟩ := fillPlaceholders_nonempty emptyPosts
    exact ⟨h1, h2, h3, get?_mod_isSome _ h1 d, get?_mod_isSome _ h2 d,
      get?_mod_isSome _ h3 d⟩
  | some pairs =>
    obtain ⟨h1, h2, h3⟩ := fillPlaceholders_nonempty (parseBlocks pairs)
    exact ⟨h1, h2, h3, get?_mod_isSome _ h1 d, get?_mod_isSome _ h2 d,
      get?_mod_isSome _ h3 d⟩

/-! ### Claim C6 -/

/-- Claim C6 counterexample: with channel "@c" configured and the channel
send raising, post_text does not stop after the channel attempt — it falls
back to an individual send to subscribed member 1, so a configured channel
does not preclude individual member sends. -/
theorem channel_failure_fallback_counterexample :
    post_text ⟨[], some "@c"⟩ ⟨[⟨1, none, none, 0, 1⟩], []⟩ false "hi" =
      [Event.send (Dest.channel "@c") "hi" [], Event.send (Dest.user 1) "hi" []] ∧
    (post_text ⟨[], some "@c"⟩ ⟨[⟨1, none, none, 0, 1⟩], []⟩ false "hi").any
      Event.isUserSend = true := by
  decide

/-- Claim C6 (amended): with a truthy configured channel a succeeding
channel send is the entire trace (no individual member sends); a raising
channel send is followed by the individual fan-out; with no truthy channel
the dispatcher goes straight to the fan-out, which attempts a send to every
subscribed member id whatever the per-recipient outcomes are (failures are
swallowed, so the attempt trace never aborts early). -/
theorem post_text_channel_behavior (cfg : Config) (db : DB) (chOk : Bool)
    (text : String) :
    (∀ ch, cfg.CHANNEL_ID = some ch → ch ≠ "" →
      post_text cfg db chOk text =
        if chOk then [Event.send (Dest.channel ch) text []]
        else Event.send (Dest.channel ch) text [] :: userFanout db text) ∧
    (cfg.CHANNEL_ID = none ∨ cfg.CHANNEL_ID = some "" →
      post_text cfg db chOk text = userFanout db text) ∧
    userFanout db text =
      (get_subscribed_users db).map (fun uid => Event.send (Dest.user uid) text []) := by
  refine ⟨?_, ?_, rfl⟩
  · intro ch hch hne
    simp [post_text, target_chat_id_fallback, hch, hne]
  · rintro (hch | hch) <;> simp [post_text, target_chat_id_fallback, hch]

/-- Witness for post_text_channel_behavior: configured healthy channel, one
subscriber — the trace is exactly the single channel send. -/
theorem post_text_channel_behavior_witness :
    post_text ⟨[], some "@hudeihudei"⟩ ⟨[⟨1, none, none, 0, 1⟩], []⟩ true "пост" =
      [Event.send (Dest.channel "@hudeihudei") "пост" []] := by
  have h := (post_text_channel_behavior ⟨[], some "@hudeihudei"⟩
      ⟨[⟨1, none, none, 0, 1⟩], []⟩ true "пост").1 "@hudeihudei" rfl (by decide)
  simpa using h

/-! ### Claim C7 -/

/-- Successes are the total minus the failures, for any boolean split of a
list. -/
theorem length_filter_eq_sub {α : Type} (l : List α) (p : α → Bool) :
    (l.filter p).length = l.length - (l.filter (fun a => !(p a))).length := by
  have h := List.length_eq_length_filter_add (l := l) p
  omega

/-- Claim C7: an admin /broadcast with a non-empty payload completes (the
handler is total), attempts a send to every subscribed member id in table
order, and reports a success count of exactly N − K, where N is the number
of subscribed members and K the number whose send the oracle fails. -/
theorem broadcast_success_count (cfg : Config) (db : DB) (okf : Nat → Bool)
    (sender : Nat) (text : String)
    (hadm : sender ∈ cfg.ADMIN_IDS) (hmsg : strTrim (afterFirstSpace text) ≠ "") :
    broadcast cfg db okf sender text =
      (db,
       (get_subscribed_users db).map
         (fun uid => Event.send (Dest.user uid) (strTrim (afterFirstSpace text)) []) ++
       [Event.reply ("Рассылка отправлена " ++
          toString ((get_subscribed_users db).length -
            ((get_subscribed_users db).filter (fun u => !(okf u))).length) ++
          " участницам.")]) := by
  rw [← length_filter_eq_sub (get_subscribed_users db) okf]
  simp [broadcast, hadm, hmsg]

/-- Witness for broadcast_success_count: three subscribers, the send to
member 2 fails, the report counts 2. -/
theorem broadcast_success_count_witness :
    broadcast ⟨[9], none⟩
        ⟨[⟨1, none, none, 0, 1⟩, ⟨2, none, none, 0, 1⟩, ⟨3, none, none, 0, 1⟩], []⟩
        (fun u => u != 2) 9 "/broadcast привет" =
      (⟨[⟨1, none, none, 0, 1⟩, ⟨2, none, none, 0, 1⟩, ⟨3, none, none, 0, 1⟩], []⟩,
       [Event.send (Dest.user 1) "привет" [], Event.send (Dest.user 2) "привет" [],
        Event.send (Dest.user 3) "привет" [],
        Event.reply "Рассылка отправлена 2 участницам."]) := by
  have h := broadcast_success_count ⟨[9], none⟩
      ⟨[⟨1, none, none, 0, 1⟩, ⟨2, none, none, 0, 1⟩, ⟨3, none, none, 0, 1⟩], []⟩
      (fun u => u != 2) 9 "/broadcast привет" (by decide) (by decide)
  exact h.trans (by decide)

/-! ### Claim C8 -/

/-- Claim C8 counterexample: author 42 submits "x"; the pending submission
is stored and both admins of the example would be notified, but the
notification text is exactly "📝 Новая история #1:\n\nx" — it contains the
submission id and the body, and the author id 42 appears nowhere in it. -/
theorem notification_lacks_author_id :
    receive_story ⟨[9], none⟩ initDB 42 "x" 0 =
      (⟨[], [⟨1, 42, "x", "pending", 0⟩]⟩,
       [Event.reply "Спасибо за доверие 💌 История отправлена на модерацию.",
        Event.send (Dest.user 9) "📝 Новая история #1:\n\nx"
          [("✅ Опубликовать", "approve:1"), ("✖️ Отклонить", "reject:1")]],
       ConvState.MENU) ∧
    strContainsSub "📝 Новая история #1:\n\nx" "42" = false := by
  decide

/-- Claim C8 (amended): in the STORY state any text becomes a new pending
submission owned by the author, the author receives the thank-you reply,
every configured administrator is sent a notification whose text contains
the submission id and the body (the author id is not part of the message)
together with the approve and reject inline actions carrying the submission
id, and the conversation returns to MENU. -/
theorem receive_story_spec (cfg : Config) (db : DB) (u : Nat) (c : String)
    (now : Nat) :
    receive_story cfg db u c now =
      ({ db with stories := db.stories ++
          [{ id := nextStoryId db, user_id := u, content := c,
             status := "pending", created_at := now }] },
       Event.reply "Спасибо за доверие 💌 История отправлена на модерацию." ::
         cfg.ADMIN_IDS.map (fun a =>
           Event.send (Dest.user a) (adminNotifyText (nextStoryId db) c)
             (storyButtons (nextStoryId db))),
       ConvState.MENU) ∧
    strContainsSub (adminNotifyText (nextStoryId db) c)
      (toString (nextStoryId db)) = true ∧
    strContainsSub (adminNotifyText (nextStoryId db) c) c = true := by
  refine ⟨?_, ?_, ?_⟩
  · by_cases hadm : cfg.ADMIN_IDS = [] <;> simp [receive_story, add_story, hadm]
  · have hshape : adminNotifyText (nextStoryId db) c =
        "📝 Новая история #" ++ toString (nextStoryId db) ++ (":\n\n" ++ c) := by
      simp [adminNotifyText, String.append_assoc]
    rw [hshape]
    exact strContainsSub_parts _ _ _
  · have hshape : adminNotifyText (nextStoryId db) c =
        ("📝 Новая история #" ++ toString (nextStoryId db) ++ ":\n\n") ++ c ++ "" := by
      simp [adminNotifyText, String.append_assoc, String.append_empty]
    rw [hshape]
    exact strContainsSub_parts _ _ _

/-! ### Claim C9 -/

/-- Claim C9: a /broadcast whose sender is outside ADMIN_IDS does nothing:
the handler returns immediately, so the database (subscribed members and
all stored rows) is unchanged and the event trace is empty. -/
theorem nonadmin_broadcast_noop (cfg : Config) (db : DB) (okf : Nat → Bool)
    (sender : Nat) (text : String) (h : sender ∉ cfg.ADMIN_IDS) :
    broadcast cfg db okf sender text = (db, []) := by
  simp [broadcast, h]

/-- Witness: sender 5 is not among the admins [9]. -/
theorem nonadmin_broadcast_noop_witness :
    broadcast ⟨[9], none⟩ initDB (fun _ => true) 5 "/broadcast hello" = (initDB, []) :=
  nonadmin_broadcast_noop ⟨[9], none⟩ initDB (fun _ => true) 5 "/broadcast hello"
    (by decide)

/-! ### Claim C10 -/

/-- Claim C10: upserting a member id already present in the users table
rewrites only the display handle and name — the (user_id, subscribed,
joined_at) projection of every row is unchanged, so in particular an
existing member's subscription flag never flips on a repeated start. -/
theorem upsert_existing_preserves_subscription (db : DB) (id : Nat)
    (u n : Option String) (now : Nat)
    (h : db.users.any (fun r => r.user_id = id) = true) :
    (upsert_user db id u n now).users.map
        (fun r => (r.user_id, r.subscribed, r.joined_at)) =
      db.users.map (fun r => (r.user_id, r.subscribed, r.joined_at)) := by
  have hcomp :
      ((fun r : UserRow => (r.user_id, r.subscribed, r.joined_at)) ∘
        (fun r : UserRow =>
          if r.user_id = id then { r with username := u, first_name := n } else r)) =
      (fun r : UserRow => (r.user_id, r.subscribed, r.joined_at)) := by
    funext r
    by_cases hr : r.user_id = id <;> simp [Function.comp, hr]
  simp only [upsert_user, h, if_true]
  rw [List.map_map, hcomp]

/-- Witness: member 7 is present with subscribed = 0 and joined_at = 3; an
upsert with fresh handle and name leaves the projection unchanged. -/
theorem upsert_existing_preserves_subscription_witness :
    (upsert_user ⟨[⟨7, none, none, 3, 0⟩], []⟩ 7 (some "u") (some "n") 99).users.map
        (fun r => (r.user_id, r.subscribed, r.joined_at)) =
      (⟨[⟨7, none, none, 3, 0⟩], []⟩ : DB).users.map
        (fun r => (r.user_id, r.subscribed, r.joined_at)) :=
  upsert_existing_preserves_subscription ⟨[⟨7, none, none, 3, 0⟩], []⟩ 7
    (some "u") (some "n") 99 (by decide)

end HudeiBot
